import Mathlib

/-!
Verification development for the sales-analyst pipeline
(`src/graph/workflow.py`, `src/models/nosql_generator.py`,
`src/utils/dynamodb_connector.py`).

Shallow embedding conventions:
* Python scalar values in data rows are modelled by `Value` (floats/ints as
  exact rationals, `decimal.Decimal` as a separate constructor so that
  `convert_decimals` is observable, strings, `None`).
* A Python dict row is an association list `Row` with first-match lookup;
  every dict built by the analysed code has pairwise-distinct keys, so
  Python's last-wins duplicate-key semantics never diverges from this model.
* Fallible external collaborators (the completion service, the similarity
  index, the executor adapter, the DynamoDB data plane) are parameters whose
  faults are `Except.error`; a Python `raise` inside the analysed code is an
  `Except.error` result.
* Wall-clock time (`datetime.now()`) is not modelled: the `timestamp` field
  is a constant and `execution_time` is recorded as `0`.
-/

/-- A Python scalar value as it occurs in result rows and query dicts. -/
inductive Value where
  | num (q : ℚ)
  | dec (q : ℚ)
  | str (s : String)
  | null
deriving DecidableEq, Repr

/-- A Python dict with string keys, as an association list (first match wins;
all dicts built by the analysed code have distinct keys). -/
abbrev Row := List (String × Value)

/-- First-match lookup, modelling `item[k]` / `item.get(k)`. -/
def rowGet (r : Row) (k : String) : Option Value :=
  (r.find? (fun p => p.1 == k)).map (fun p => p.2)

/-- Python truthiness of a scalar value (`if not table_name: ...`). -/
def pyTruthy (v : Value) : Bool :=
  match v with
  | Value.num q => q != 0
  | Value.dec q => q != 0
  | Value.str s => s != ""
  | Value.null => false

/-- Digit value of a character, when it is a decimal digit. -/
def digitVal? (c : Char) : Option ℕ :=
  if c.isDigit then some (c.toNat - '0'.toNat) else none

/-- Fold a digit list into a natural number (caller checks digit-ness). -/
def digitsToNat (l : List Char) : ℕ :=
  l.foldl (fun acc c => 10 * acc + (c.toNat - '0'.toNat)) 0

/-- Split a character list at the first '.', if any. -/
def splitDot : List Char → (List Char × Option (List Char))
  | [] => ([], none)
  | c :: r =>
    if c = '.' then ([], some r)
    else
      let p := splitDot r
      (c :: p.1, p.2)

/-- Models Python `float(s)` on a string: optional sign, decimal digits,
optional fractional part.  Exponent notation, `inf`/`nan` and surrounding
whitespace — accepted by Python but never produced by the analysed data —
are not modelled; every string the claims exercise is either a plain decimal
literal (parsed exactly) or non-numeric (rejected, as Python raises
`ValueError`). -/
def pyParseFloat? (s : String) : Option ℚ :=
  let cs := s.toList
  let signRest : Bool × List Char :=
    match cs with
    | '-' :: r => (true, r)
    | '+' :: r => (false, r)
    | r => (false, r)
  let neg := signRest.1
  let p := splitDot signRest.2
  let ip := p.1
  match p.2 with
  | none =>
    if ip ≠ [] ∧ ip.all Char.isDigit then
      some ((if neg then -1 else 1) * (digitsToNat ip : ℚ))
    else none
  | some fp =>
    if (ip ≠ [] ∨ fp ≠ []) ∧ ip.all Char.isDigit ∧ fp.all Char.isDigit then
      some ((if neg then -1 else 1) *
        ((digitsToNat ip : ℚ) + (digitsToNat fp : ℚ) / ((10 : ℚ) ^ fp.length)))
    else none

/-- Models Python `float(v)` on a row value: numbers and Decimals coerce,
numeric strings parse, everything else raises (`none`). -/
def pyFloat? (v : Value) : Option ℚ :=
  match v with
  | Value.num q => some q
  | Value.dec q => some q
  | Value.str s => pyParseFloat? s
  | Value.null => none

/-- Models Python `str(v)`.  Rendering of numbers differs textually from
CPython (`toString (10 : ℚ) = "10"` vs `str(10.0) = "10.0"`), which is
irrelevant to every claim: grouping only compares these strings for equality,
and distinct source values of the same constructor stay distinct. -/
def pyStr (v : Value) : String :=
  match v with
  | Value.str s => s
  | Value.num q => toString q
  | Value.dec q => toString q
  | Value.null => "None"

/-- Python whitespace characters relevant to `str.strip()`. -/
def isPyWs (c : Char) : Bool :=
  c = ' ' ∨ c = '\t' ∨ c = '\n' ∨ c = '\r' ∨ c = '\x0b' ∨ c = '\x0c'

/-- Models Python `s.strip()`. -/
def pyStrip (s : String) : String :=
  String.mk (((s.toList.dropWhile isPyWs).reverse.dropWhile isPyWs).reverse)

/-- `listStartsWith l p` : `p` is an initial segment of `l`. -/
def listStartsWith : List Char → List Char → Bool
  | _, [] => true
  | [], _ :: _ => false
  | a :: as, b :: bs => a == b && listStartsWith as bs

/-- `listContainsSub l sub` : `sub` occurs contiguously inside `l`. -/
def listContainsSub : List Char → List Char → Bool
  | [], sub => sub.isEmpty
  | a :: as, sub => listStartsWith (a :: as) sub || listContainsSub as sub

/-- Models Python `sub in s` (substring containment). -/
def strContainsSub (s sub : String) : Bool :=
  listContainsSub s.toList sub.toList

/-- Models Python `str.lower()`; ASCII case folding suffices for the
keyword matching the analysed code performs. -/
def pyLower (s : String) : String :=
  String.mk (s.toList.map Char.toLower)

/-- Result of `process_aggregation` — the Python dict
`{'result': r, 'count': c}` (`result` may be a float or an int in Python;
both are exact rationals here). -/
structure AggResult where
  result : ℚ
  count : ℕ
deriving DecidableEq, Repr

/-- `process_aggregation` from `src/src/models/nosql_generator.py`
(lines 125–168), translated clause by clause:
empty input first, then `count`, then the falsy-`field` guard (Python
`if not field` is true for `None` and `""`), then numeric extraction with
silent discard of absent/non-coercible values, then the per-type reduction
with the surviving-value count as the default. -/
def process_aggregation (items : List Row) (aggregation_type : String)
    (field : Option String) : AggResult :=
  if items.isEmpty then ⟨0, 0⟩
  else if pyLower aggregation_type = "count" then ⟨items.length, items.length⟩
  else
    match field with
    | none => ⟨items.length, items.length⟩
    | some f =>
      if f = "" then ⟨items.length, items.length⟩
      else
        let values : List ℚ := items.filterMap (fun item => (rowGet item f).bind pyFloat?)
        if values.isEmpty then ⟨0, 0⟩
        else if pyLower aggregation_type = "sum" then ⟨values.sum, values.length⟩
        else if pyLower aggregation_type = "avg" then
          ⟨values.sum / (values.length : ℚ), values.length⟩
        else if pyLower aggregation_type = "max" then
          ⟨values.foldl max (values.headD 0), values.length⟩
        else if pyLower aggregation_type = "min" then
          ⟨values.foldl min (values.headD 0), values.length⟩
        else ⟨values.length, values.length⟩

/-- Append `item` to the group keyed `k`, or start a new group at the end —
models insertion into the Python dict `groups` (insertion-ordered). -/
def addToGroups : List (String × List Row) → String → Row → List (String × List Row)
  | [], k, item => [(k, [item])]
  | g :: rest, k, item =>
    if g.1 = k then (g.1, g.2 ++ [item]) :: rest
    else g :: addToGroups rest k item

/-- One iteration of the grouping loop of `group_by_field` (lines 185–192):
a row missing `group_field` is skipped, otherwise it is appended to the group
keyed by the string value of that field. -/
def groupStep (group_field : String) (gs : List (String × List Row)) (item : Row) :
    List (String × List Row) :=
  match rowGet item group_field with
  | none => gs
  | some v => addToGroups gs (pyStr v) item

/-- The grouping loop of `group_by_field` (lines 183–192): rows missing
`group_field` are skipped; others are appended to the group keyed by the
string value of that field, groups ordered by first occurrence. -/
def buildGroups (items : List Row) (group_field : String) : List (String × List Row) :=
  items.foldl (groupStep group_field) []

/-- The output-dict key `f'{aggregation_type}_{aggregation_field or "items"}'`
(Python `or` treats the empty string like `None`). -/
def aggResultKey (aggregation_type : String) (aggregation_field : Option String) : String :=
  aggregation_type ++ "_" ++
    (match aggregation_field with
     | some f => if f = "" then "items" else f
     | none => "items")

/-- One output row of `group_by_field` for a group. -/
def emitGroupRow (group_field : String) (aggregation_field : Option String)
    (aggregation_type : String) (group_key : String) (group_items : List Row) : Row :=
  let agg := process_aggregation group_items aggregation_type aggregation_field
  [(group_field, Value.str group_key),
   (aggResultKey aggregation_type aggregation_field, Value.num agg.result),
   ("count", Value.num (agg.count : ℚ))]

/-- The result list of `group_by_field` before the final sort (lines 194–201). -/
def emitGroupRows (items : List Row) (group_field : String)
    (aggregation_field : Option String) (aggregation_type : String) : List Row :=
  (buildGroups items group_field).map
    (fun g => emitGroupRow group_field aggregation_field aggregation_type g.1 g.2)

/-- Stable insertion for a descending sort: `x` goes before the first element
whose key is `≤ key x`, so earlier elements win ties. -/
def insertDesc {α : Type} (key : α → ℚ) (x : α) : List α → List α
  | [] => [x]
  | y :: ys => if key y ≤ key x then x :: y :: ys else y :: insertDesc key x ys

/-- Stable descending sort by a rational key — models Python
`list.sort(key=…, reverse=True)`, which is documented stable. -/
def sortDesc {α : Type} (key : α → ℚ) : List α → List α
  | [] => []
  | x :: xs => insertDesc key x (sortDesc key xs)

/-- Sort key used on the emitted rows: `x[f'{aggregation_type}_…']`.
On every row `group_by_field` emits this key is present and numeric, so the
default `0` arm is unreachable there. -/
def sortKeyOf (aggKey : String) (r : Row) : ℚ :=
  match rowGet r aggKey with
  | some (Value.num q) => q
  | some (Value.dec q) => q
  | _ => 0

/-- `group_by_field` from `src/src/models/nosql_generator.py` (lines 170–205):
group, aggregate each group, emit one row per group, sort by the aggregated
value descending (Python's stable sort). -/
def group_by_field (items : List Row) (group_field : String)
    (aggregation_field : Option String) (aggregation_type : String) : List Row :=
  sortDesc (sortKeyOf (aggResultKey aggregation_type aggregation_field))
    (emitGroupRows items group_field aggregation_field aggregation_type)

/-- The fixed keyword set of `AnalysisWorkflow._needs_aggregation`. -/
def aggregation_keywords : List String :=
  ["top", "best", "highest", "lowest", "most", "least", "average", "total", "sum", "count"]

/-- `AnalysisWorkflow._needs_aggregation` (workflow.py lines 314–317). -/
def needs_aggregation (query : String) : Bool :=
  aggregation_keywords.any (fun k => strContainsSub (pyLower query) k)

/-- Sort key of the rule-4 price sort: `float(x.get('unit_price', 0))` —
a missing field defaults to `0`; a present non-numeric value raises. -/
def unitPriceKey? (r : Row) : Option ℚ :=
  match rowGet r "unit_price" with
  | none => some 0
  | some v => pyFloat? v

/-- Decorate each row with its `unit_price` sort key; `none` when some
present value fails to coerce (Python's sort raises `ValueError` there). -/
def unitPriceKeyed? (results : List Row) : Option (List (ℚ × Row)) :=
  results.mapM (fun r => (unitPriceKey? r).map (fun q => (q, r)))

/-- `AnalysisWorkflow._process_aggregation` (workflow.py lines 319–339).
An `Except.error` result models the `ValueError` the in-place price sort can
raise (caught by `execute`'s `try`).  Rule 4 sorts only when the result list
is non-empty and its first row contains `unit_price`; otherwise control falls
through to the final `return results[:10]`. -/
def processAggregationDispatch (results : List Row) (query : String) :
    Except String (List Row) :=
  let ql := pyLower query
  if strContainsSub ql "product" && strContainsSub ql "revenue" then
    Except.ok ((group_by_field results "product_name" (some "line_total") "sum").take 10)
  else if strContainsSub ql "customer" &&
      (strContainsSub ql "order value" || strContainsSub ql "total") then
    Except.ok ((group_by_field results "customer_name" (some "line_total") "sum").take 10)
  else if strContainsSub ql "count" && strContainsSub ql "country" then
    Except.ok ((group_by_field results "customer_country" none "count").take 10)
  else if strContainsSub ql "price" &&
      (strContainsSub ql "highest" || strContainsSub ql "expensive") then
    match results with
    | [] => Except.ok []
    | r0 :: _ =>
      if (rowGet r0 "unit_price").isSome then
        match unitPriceKeyed? results with
        | none => Except.error "could not convert string to float"
        | some keyed =>
          Except.ok (((sortDesc (fun p => p.1) keyed).map (fun p => p.2)).take 10)
      else Except.ok (results.take 10)
  else Except.ok (results.take 10)

/-- Crude scalar rendering for prompt text.  Exact prompt text is irrelevant
to every theorem: the completion behaviour is quantified over all functions
of the prompt, and each concrete counterexample environment only inspects a
leading phrase that is reproduced exactly. -/
def pyReprValue (v : Value) : String :=
  match v with
  | Value.num q => toString q
  | Value.dec q => toString q
  | Value.str s => s
  | Value.null => "None"

/-- Crude rendering of a dict for prompt text (see `pyReprValue`). -/
def pyReprRow (r : Row) : String :=
  "\x7b" ++ String.intercalate ", " (r.map (fun p => p.1 ++ ": " ++ pyReprValue p.2)) ++ "\x7d"

/-- Crude rendering of a row list for prompt text. -/
def pyReprRows (rs : List Row) : String :=
  String.intercalate "\n" (rs.map pyReprRow)

/-- The slice of `get_table_info`'s result dict that
`NoSQLGenerator._build_schema_context` reads: the key schema entries and a
sample item (`dynamodb_connector.get_table_info`, lines 125–159). -/
structure TableInfo where
  key_schema : List Row
  sample_item : Row

/-- `NoSQLGenerator._get_table_description` (nosql_generator.py lines 103–115). -/
def get_table_description (table_name : String) : String :=
  if table_name = "customers" then
    "Customer information including company name, contact details, and location"
  else if table_name = "products" then
    "Product catalog with names, prices, categories, and stock levels"
  else if table_name = "orders" then
    "Order information including dates, customer, employee, and shipping details"
  else if table_name = "order_details" then
    "Order line items with product, quantity, price, and discount information"
  else if table_name = "categories" then
    "Product categories with names and descriptions"
  else if table_name = "suppliers" then
    "Supplier information including company details and contacts"
  else if table_name = "employees" then
    "Employee data including names, titles, and hire dates"
  else if table_name = "shippers" then
    "Shipping company information"
  else "Business data table"

/-- `NoSQLGenerator._build_schema_context` (lines 87–101). -/
def build_schema_context (table_schemas : List (String × TableInfo)) : String :=
  table_schemas.foldl
    (fun context ts =>
      context ++ "\nTable: " ++ ts.1 ++ "\n"
        ++ "Key Schema: [" ++ String.intercalate ", " (ts.2.key_schema.map pyReprRow) ++ "]\n"
        ++ (if ts.2.sample_item.isEmpty then ""
            else "Sample Item Structure: ["
              ++ String.intercalate ", " (ts.2.sample_item.map (fun p => p.1)) ++ "]\n")
        ++ "Description: " ++ get_table_description ts.1 ++ "\n")
    ""

/-- The generation prompt built in `NoSQLGenerator.generate_query`
(lines 37–56). -/
def nosqlPrompt (nl_query : String) (table_schemas : List (String × TableInfo)) : String :=
  "You are an expert DynamoDB query generator. "
    ++ "Generate a DynamoDB query operation based on the natural language request.\n\n"
    ++ "Available Tables and Schema:\n" ++ build_schema_context table_schemas ++ "\n\n"
    ++ "Natural Language Query: " ++ nl_query ++ "\n\n"
    ++ "Generate a JSON response with the following structure:\n"
    ++ "\x7b\n"
    ++ "  \"operation\": \"scan\" or \"query\",\n"
    ++ "  \"table_name\": \"table_name\",\n"
    ++ "  \"key_condition\": \"for query operations only\",\n"
    ++ "  \"filter_expression\": \"optional filter\",\n"
    ++ "  \"projection_expression\": \"optional projection\",\n"
    ++ "  \"explanation\": \"brief explanation of the query\"\n"
    ++ "\x7d\n\n"
    ++ "Important DynamoDB Guidelines:\n"
    ++ "- Use \x27scan\x27 for full table scans or when filtering on non-key attributes\n"
    ++ "- Use \x27query\x27 only when filtering by partition key (and optionally sort key)\n"
    ++ "- For aggregations like COUNT, SUM, AVG, use scan with appropriate filters\n"
    ++ "- Return only valid JSON, no additional text\n"

/-- `NoSQLGenerator._fallback_query` (lines 117–123). -/
def fallback_query (_nl_query : String) : Row :=
  [("operation", Value.str "scan"),
   ("table_name", Value.str "sales_transactions"),
   ("explanation", Value.str "Scanning denormalized sales transactions table for analysis")]

/-- The Markdown code-fence stripping of `NoSQLGenerator.generate_query`
(lines 64–70): strip, drop a leading "```json", drop a trailing "```",
strip again. -/
def stripCodeFences (response_text : String) : String :=
  let t := pyStrip response_text
  let t := if t.startsWith "```json" then t.drop 7 else t
  let t := if t.endsWith "```" then t.dropRight 3 else t
  pyStrip t

/-- External collaborators of the pipeline.

* `invoke_model` — `BedrockHelper.invoke_model` (the class lives outside
  `src/`); its transport faults raise, which the workflow stages catch, so it
  is an `Except`-valued behaviour.
* `similarity_search` — the vector store's top-k search; faults raise.
* `parseJson` — `json.loads` restricted to string-keyed objects, the only
  JSON shape the pipeline ever stores or reads; `none` models
  `json.JSONDecodeError`.  (A non-object parse could only reach the
  write-only `query_analysis` field and no claim observes it.)
* `invoke_bedrock_model` — Modelled from the spec: `src/utils/bedrock_client.py`
  is absent from the repository snapshot; per spec §4.4/§7(b) a transport
  fault of this call, like a falsy envelope, yields the fallback rather than
  raising, so the boundary returns `none` on fault and the envelope-text
  extraction of `_extract_response_text` (spec §6) is folded into it.
* `get_available_tables` / `get_table_info` — the connector functions catch
  every exception internally (returning `[]` / an empty dict), so they are
  total here. -/
structure Env where
  invoke_model : String → Except String String
  similarity_search : String → ℕ → Except String (List Row)
  parseJson : String → Option Row
  invoke_bedrock_model : String → Option String
  get_available_tables : List String
  get_table_info : String → TableInfo

/-- `NoSQLGenerator.generate_query` (nosql_generator.py lines 24–77). -/
def NoSQLGenerator_generate_query (env : Env) (nl_query : String)
    (table_schemas : List (String × TableInfo)) : Row :=
  let message_content := nosqlPrompt nl_query table_schemas
  match env.invoke_bedrock_model message_content with
  | none => fallback_query nl_query
  | some result =>
    let response_text := stripCodeFences (pyStrip result)
    match env.parseJson response_text with
    | some query_dict => query_dict
    | none => fallback_query nl_query

/-- The workflow state dict.  `Option` fields model absent dict keys
(`"error" in state` is `error.isSome`); `timestamp` is a constant because
wall-clock time is outside the model, and `error_handled := false` stands
for the key being absent (it is write-only). -/
structure WorkflowState where
  query : String
  timestamp : String
  steps_completed : List String
  query_analysis : Option Row
  relevant_context : Option (List Row)
  generated_query : Option Row
  query_results : Option (List Row)
  execution_time : Option ℚ
  analysis : Option String
  error : Option String
  error_handled : Bool
  friendly_error : Option String
deriving DecidableEq, Repr

/-- The initial state built at the top of `AnalysisWorkflow.execute`
(workflow.py lines 267–272). -/
def initState (query : String) : WorkflowState :=
  { query := query
    timestamp := "start"
    steps_completed := []
    query_analysis := none
    relevant_context := none
    generated_query := none
    query_results := none
    execution_time := none
    analysis := none
    error := none
    error_handled := false
    friendly_error := none }

/-- The classification prompt of `understand_query` (lines 39–50). -/
def understandPrompt (query : String) : String :=
  "Analyze this query and classify it:\n        \nQuery: " ++ query
    ++ "\n\nDetermine:\n1. Query type (analysis/nosql/metadata/comparison)\n"
    ++ "2. Required data sources or tables\n3. Time frame mentioned (if any)\n"
    ++ "4. Specific metrics requested (if any)\n\nReturn as JSON with these fields.\n"

/-- The default intent substituted on a JSON-decode failure (lines 60–65).
The two empty-array fields are rendered as `null` in the flat scalar model;
`query_analysis` is write-only in the pipeline, so no claim observes them. -/
def default_query_analysis : Row :=
  [("type", Value.str "analysis"),
   ("data_sources", Value.null),
   ("time_frame", Value.str "not specified"),
   ("metrics", Value.null)]

/-- `AnalysisWorkflow.understand_query` (workflow.py lines 27–77). -/
def understand_query (env : Env) (state : WorkflowState) : WorkflowState :=
  match env.invoke_model (understandPrompt state.query) with
  | Except.ok response =>
    let analysis :=
      match env.parseJson response with
      | some a => a
      | none => default_query_analysis
    { state with query_analysis := some analysis,
                 steps_completed := state.steps_completed ++ ["understand_query"] }
  | Except.error e =>
    { state with error := some ("Error in understand_query: " ++ e),
                 steps_completed := state.steps_completed ++ ["understand_query_error"] }

/-- The fallback context entry of `retrieve_context` (lines 101–107). -/
def fallback_context_doc : Row :=
  [("text", Value.str ("Use DynamoDB tables: customers, orders, order_details, "
    ++ "products, categories, suppliers, employees, shippers"))]

/-- `AnalysisWorkflow.retrieve_context` (workflow.py lines 79–119). -/
def retrieve_context (env : Env) (state : WorkflowState) : WorkflowState :=
  if state.error.isSome then state
  else
    match env.similarity_search state.query 5 with
    | Except.ok similar_docs =>
      if similar_docs.isEmpty then
        { state with relevant_context := some [fallback_context_doc],
                     steps_completed := state.steps_completed
                       ++ ["retrieve_context", "fallback_context"] }
      else
        { state with relevant_context := some similar_docs,
                     steps_completed := state.steps_completed ++ ["retrieve_context"] }
    | Except.error e =>
      { state with error := some ("Error in retrieve_context: " ++ e),
                   steps_completed := state.steps_completed ++ ["retrieve_context_error"] }

/-- `AnalysisWorkflow.generate_query` (workflow.py lines 121–162).
The source's `except` arm (lines 157–162) is unreachable in this model:
`get_available_tables`/`get_table_info` absorb their faults internally
(connector source, lines 110–159) and the generator itself never raises
(spec-modelled completion boundary), so the try suite is total. -/
def generate_query (env : Env) (state : WorkflowState) : WorkflowState :=
  if state.error.isSome then state
  else
    let tables := env.get_available_tables
    let table_schemas : List (String × TableInfo) :=
      if tables.contains "sales_transactions" then
        [("sales_transactions", env.get_table_info "sales_transactions")]
      else []
    let query_dict := NoSQLGenerator_generate_query env state.query table_schemas
    { state with generated_query := some query_dict,
                 steps_completed := state.steps_completed ++ ["generate_query"] }

/-- The `results_str` serialization of `analyze_results` (lines 191–193). -/
def analyzeResultsStr (results : List Row) : String :=
  pyReprRows (results.take 10)
    ++ (if results.length > 10 then
          "\n... and " ++ toString (results.length - 10) ++ " more rows"
        else "")

/-- The analysis prompt of `analyze_results` (lines 195–205);
`json.dumps(query_dict, indent=2)` is rendered by the crude `pyReprRow`
(see `pyReprValue` for why this is claim-irrelevant). -/
def analyzePrompt (query : String) (query_dict : Row) (results : List Row) : String :=
  "Analyze these DynamoDB query results to answer the user\x27s question:\n        \nQuestion: "
    ++ query ++ "\n\nDynamoDB Query: " ++ pyReprRow query_dict
    ++ "\n\nQuery Results (first 10 rows):\n" ++ analyzeResultsStr results
    ++ "\n\nProvide a clear, concise analysis that directly answers the question. "
    ++ "Include key insights from the data.\n"

/-- `AnalysisWorkflow.analyze_results` (workflow.py lines 164–220). -/
def analyze_results (env : Env) (state : WorkflowState) : WorkflowState :=
  if state.error.isSome then state
  else
    let results := state.query_results.getD []
    if results.isEmpty then
      { state with analysis := some "No results found for this query.",
                   steps_completed := state.steps_completed ++ ["analyze_results"] }
    else
      match env.invoke_model (analyzePrompt state.query (state.generated_query.getD []) results) with
      | Except.ok analysis =>
        { state with analysis := some (pyStrip analysis),
                     steps_completed := state.steps_completed ++ ["analyze_results"] }
      | Except.error e =>
        { state with error := some ("Error in analyze_results: " ++ e),
                     steps_completed := state.steps_completed ++ ["analyze_results_error"] }

/-- The error-rewrite prompt of `handle_error` (lines 235–242). -/
def handleErrorPrompt (query error : String) : String :=
  "An error occurred while processing this query:\n        \nQuery: " ++ query
    ++ "\n\nError: " ++ error
    ++ "\n\nGenerate a user-friendly error message explaining what went wrong "
    ++ "and suggesting how to fix it.\n"

/-- The static fallback template of `handle_error` (line 247). -/
def staticErrorMessage (error : String) : String :=
  "Sorry, an error occurred: " ++ error ++ ". Please try rephrasing your question."

/-- `AnalysisWorkflow.handle_error` (workflow.py lines 222–254). -/
def handle_error (env : Env) (state : WorkflowState) : WorkflowState :=
  let error := state.error.getD "Unknown error"
  let friendly_message :=
    match env.invoke_model (handleErrorPrompt state.query error) with
    | Except.ok msg => msg
    | Except.error _ => staticErrorMessage error
  { state with error_handled := true,
               friendly_error := some (pyStrip friendly_message),
               steps_completed := state.steps_completed ++ ["handle_error"] }

/-- Line 275 of `AnalysisWorkflow.execute`: the state after classification. -/
def afterUnderstand (env : Env) (query : String) : WorkflowState :=
  understand_query env (initState query)

/-- Lines 277–278 of `AnalysisWorkflow.execute`: retrieval, guarded on no error. -/
def afterRetrieve (env : Env) (query : String) : WorkflowState :=
  if (afterUnderstand env query).error.isNone then
    retrieve_context env (afterUnderstand env query)
  else afterUnderstand env query

/-- The first three stages of `AnalysisWorkflow.execute` (lines 274–281):
the state reaching the adapter phase. -/
def preAdapterState (env : Env) (query : String) : WorkflowState :=
  if (afterRetrieve env query).error.isNone then
    generate_query env (afterRetrieve env query)
  else afterRetrieve env query

/-- The `try` suite of `AnalysisWorkflow.execute` (lines 285–308): run the
adapter, optionally aggregate, analyze; any exception of the suite (adapter
fault or aggregation `ValueError`) becomes `error` and routes to
`handle_error`.  `execution_time` is recorded as `0` (wall-clock time is
outside the model). -/
def executeAdapterPhase (env : Env) (state : WorkflowState) (query_dict : Row)
    (execute_query_func : Row → Except String (List Row)) : WorkflowState :=
  match execute_query_func query_dict with
  | Except.error e =>
    handle_error env { state with error := some ("Error executing DynamoDB query: " ++ e) }
  | Except.ok results =>
    let state := { state with query_results := some results, execution_time := some 0 }
    if needs_aggregation state.query then
      match processAggregationDispatch results state.query with
      | Except.error e =>
        handle_error env { state with error := some ("Error executing DynamoDB query: " ++ e) }
      | Except.ok results2 =>
        analyze_results env { state with query_results := some results2 }
    else analyze_results env state

/-- `AnalysisWorkflow.execute` (workflow.py lines 256–312).  The adapter
parameter mirrors `execute_query_func=None`: the first match arm is the
`if "generated_query" in state and "error" not in state and execute_query_func:`
branch, the fallback the `elif "error" in state:` branch. -/
def execute (env : Env) (query : String)
    (execute_query_func : Option (Row → Except String (List Row))) : WorkflowState :=
  let state := preAdapterState env query
  match state.generated_query, state.error, execute_query_func with
  | some query_dict, none, some f => executeAdapterPhase env state query_dict f
  | _, _, _ => if state.error.isSome then handle_error env state else state

/-- The DynamoDB data plane reached through the boto3 resource handle.
`get_dynamodb_resource` only constructs the lazy handle (no data-plane I/O),
so it is the `db` parameter itself; `scan` and `query` model `table.scan()` /
`table.query(**kwargs)` and fault via `Except.error` (including boto3's own
validation errors, e.g. a `None` key condition).  `query` receives the raw
`key_condition` / `filter_expression` / `projection_expression` lookups;
the source omits falsy kwargs, a distinction absorbed by quantifying over
behaviours. -/
structure DynamoDBStore where
  scan : String → Except String (List Row)
  query : String → Option Value → Option Value → Option Value → Except String (List Row)

/-- `convert_decimals` on a scalar (dynamodb_connector.py lines 99–108). -/
def convert_decimals_value (v : Value) : Value :=
  match v with
  | Value.dec q => Value.num q
  | v => v

/-- `convert_decimals` on one item: the items of this application are flat
dicts, so the recursive list/dict arms of the source collapse to a
per-field map. -/
def convert_decimals_item (r : Row) : Row :=
  r.map (fun p => (p.1, convert_decimals_value p.2))

/-- The `try` suite of `dynamodb_connector.execute_query` (lines 54–93),
with a Python `raise` as `Except.error`. -/
def dynamodb_execute_query_core (db : DynamoDBStore) (query_dict : Row) :
    Except String (List Row) :=
  let operation := (rowGet query_dict "operation").getD (Value.str "scan")
  match rowGet query_dict "table_name" with
  | none => Except.error "Table name is required"
  | some tn =>
    if pyTruthy tn = false then Except.error "Table name is required"
    else if operation = Value.str "scan" then
      match db.scan (pyStr tn) with
      | Except.ok items => Except.ok (items.map convert_decimals_item)
      | Except.error e => Except.error e
    else if operation = Value.str "query" then
      match db.query (pyStr tn) (rowGet query_dict "key_condition")
          (rowGet query_dict "filter_expression")
          (rowGet query_dict "projection_expression") with
      | Except.ok items => Except.ok (items.map convert_decimals_item)
      | Except.error e => Except.error e
    else Except.error ("Unsupported operation: " ++ pyStr operation)

/-- `dynamodb_connector.execute_query` (lines 42–97): the catch-all
`except` converts every fault of the try suite into `[]`. -/
def dynamodb_execute_query (db : DynamoDBStore) (query_dict : Row) : List Row :=
  match dynamodb_execute_query_core db query_dict with
  | Except.ok items => items
  | Except.error _ => []

/-- Association-list lookup on the group list (proof-side helper). -/
def groupsLookup : List (String × List Row) → String → Option (List Row)
  | [], _ => none
  | g :: rest, k => if g.1 = k then some g.2 else groupsLookup rest k

/-- The string group key a row contributes, when `group_field` is present. -/
def keyOfRow? (group_field : String) (r : Row) : Option String :=
  (rowGet r group_field).map pyStr

/-- Specification-side partition of claim C3: the rows whose `group_field`
has string value `k`. -/
def pyPartition (items : List Row) (group_field : String) (k : String) : List Row :=
  items.filter (fun r => keyOfRow? group_field r == some k)

/-- A benign environment: completion succeeds, the index returns one
document, JSON never parses, the generation-side completion faults
(yielding the fallback descriptor), no tables are listed. -/
def baseEnv : Env :=
  { invoke_model := fun _ => Except.ok "ok"
    similarity_search := fun _ _ => Except.ok [[("text", Value.str "doc")]]
    parseJson := fun _ => none
    invoke_bedrock_model := fun _ => none
    get_available_tables := []
    get_table_info := fun _ => ⟨[], []⟩ }

/-- A state that already carries an error. -/
def erroredState : WorkflowState :=
  { initState "q" with error := some "boom" }

/-- A data store whose data plane always faults. -/
def downStore : DynamoDBStore :=
  { scan := fun _ => Except.error "down"
    query := fun _ _ _ _ => Except.error "down" }

/-- Environment whose similarity search succeeds with zero results. -/
def emptyIndexEnv : Env :=
  { baseEnv with similarity_search := fun _ _ => Except.ok [] }

/-- The output-row shape claim C3 predicts for the group keyed `k`, with the
`count` component as the code actually computes it: the `count` field of
`process_aggregation` on the partition (the surviving-value count for
sum/avg/max/min — NOT the partition size the claim states). -/
def specGroupOutputRow (gf : String) (af : Option String) (aty k : String)
    (items : List Row) : Row :=
  [(gf, Value.str k),
   (aggResultKey aty af,
    Value.num (process_aggregation (pyPartition items gf k) aty af).result),
   ("count",
    Value.num ((process_aggregation (pyPartition items gf k) aty af).count : ℚ))]

/-- An executor adapter that always raises. -/
def failingAdapter : Row → Except String (List Row) := fun _ => Except.error "boom"

/-- Environment whose completion service succeeds with the empty string. -/
def emptyCompletionEnv : Env :=
  { baseEnv with invoke_model := fun _ => Except.ok "" }

/-- A completion service that faults exactly on the analysis prompt
(recognised by its fixed leading phrase) and succeeds elsewhere. -/
def analyzeFaultEnv : Env :=
  { baseEnv with
    invoke_model := fun p =>
      if listStartsWith p.toList ("Analyze these" : String).toList then
        Except.error "fail"
      else Except.ok "ok" }

/-- An executor adapter that succeeds with one row. -/
def okAdapter : Row → Except String (List Row) := fun _ => Except.ok [[("a", Value.num 1)]]

theorem insertDesc_perm {α : Type} (key : α → ℚ) (x : α) (l : List α) :
    List.Perm (insertDesc key x l) (x :: l) := by
  induction l with
  | nil => simp [insertDesc]
  | cons y ys ih =>
    simp only [insertDesc]
    split
    · exact List.Perm.refl _
    · exact (ih.cons y).trans (List.Perm.swap x y ys)

theorem sortDesc_perm {α : Type} (key : α → ℚ) (l : List α) :
    List.Perm (sortDesc key l) l := by
  induction l with
  | nil => exact List.Perm.refl _
  | cons x xs ih =>
    simp only [sortDesc]
    exact (insertDesc_perm key x (sortDesc key xs)).trans (ih.cons x)

theorem insertDesc_pairwise {α : Type} (key : α → ℚ) (x : α) (l : List α)
    (h : List.Pairwise (fun a b => key b ≤ key a) l) :
    List.Pairwise (fun a b => key b ≤ key a) (insertDesc key x l) := by
  induction l with
  | nil => simp [insertDesc]
  | cons y ys ih =>
    rw [List.pairwise_cons] at h
    obtain ⟨hy, hys⟩ := h
    simp only [insertDesc]
    split
    · rename_i hle
      refine List.Pairwise.cons ?_ (List.Pairwise.cons hy hys)
      intro b hb
      rcases List.mem_cons.mp hb with rfl | hb
      · exact hle
      · exact le_trans (hy b hb) hle
    · rename_i hgt
      push_neg at hgt
      refine List.Pairwise.cons ?_ (ih hys)
      intro b hb
      have hb' : b = x ∨ b ∈ ys := by
        have := (insertDesc_perm key x ys).mem_iff.mp hb
        simpa using this
      rcases hb' with rfl | hb'
      · exact le_of_lt hgt
      · exact hy b hb'

theorem sortDesc_pairwise {α : Type} (key : α → ℚ) (l : List α) :
    List.Pairwise (fun a b => key b ≤ key a) (sortDesc key l) := by
  induction l with
  | nil => simp [sortDesc]
  | cons x xs ih => exact insertDesc_pairwise key x _ ih

theorem insertDesc_filter {α : Type} (key : α → ℚ) (x : α) (l : List α) (c : ℚ)
    (h : List.Pairwise (fun a b => key b ≤ key a) l) :
    (insertDesc key x l).filter (fun a => key a == c) =
      if key x == c then x :: l.filter (fun a => key a == c)
      else l.filter (fun a => key a == c) := by
  induction l with
  | nil => simp only [insertDesc, List.filter_cons, List.filter_nil]
  | cons y ys ih =>
    rw [List.pairwise_cons] at h
    obtain ⟨hy, hys⟩ := h
    simp only [insertDesc]
    split
    · rename_i hle
      rw [List.filter_cons]
    · rename_i hgt
      push_neg at hgt
      by_cases hx : key x = c
      · by_cases hyc : key y = c
        · exact absurd hgt (by rw [hx, hyc]; exact lt_irrefl c)
        · simp only [List.filter_cons, ih hys, hx, hyc]
          simp [hx, hyc]
      · by_cases hyc : key y = c
        · simp only [List.filter_cons, ih hys, hx, hyc]
          simp [hx, hyc]
        · simp only [List.filter_cons, ih hys, hx, hyc]
          simp [hx, hyc]

theorem sortDesc_filter {α : Type} (key : α → ℚ) (l : List α) (c : ℚ) :
    (sortDesc key l).filter (fun a => key a == c) = l.filter (fun a => key a == c) := by
  induction l with
  | nil => rfl
  | cons x xs ih =>
    simp only [sortDesc]
    rw [insertDesc_filter key x _ c (sortDesc_pairwise key xs), List.filter_cons]
    by_cases hx : key x = c
    · simp [hx, ih]
    · simp [hx, ih]

theorem groupsLookup_addToGroups (acc : List (String × List Row)) (k k' : String) (r : Row) :
    groupsLookup (addToGroups acc k r) k' =
      if k' = k then some ((groupsLookup acc k).getD [] ++ [r]) else groupsLookup acc k' := by
  induction acc with
  | nil =>
    by_cases h : k' = k
    · subst h; simp [addToGroups, groupsLookup]
    · have h2 : ¬ k = k' := fun hh => h hh.symm
      simp [addToGroups, groupsLookup, h, h2]
  | cons g rest ih =>
    simp only [addToGroups]
    by_cases hgk : g.1 = k
    · rw [if_pos hgk]
      by_cases h : k' = k
      · subst h
        simp [groupsLookup, hgk]
      · have h2 : ¬ g.1 = k' := fun hh => h (hh.symm.trans hgk)
        simp [groupsLookup, h, h2]
    · rw [if_neg hgk]
      by_cases h : k' = k
      · subst h
        simp [groupsLookup, hgk, ih]
      · by_cases hg' : g.1 = k'
        · simp [groupsLookup, hg', h]
        · simp [groupsLookup, hg', h, ih]

theorem foldl_groupStep_lookup (group_field : String) (items : List Row) :
    ∀ (acc : List (String × List Row)) (k : String),
      groupsLookup (items.foldl (groupStep group_field) acc) k =
        match groupsLookup acc k with
        | some p => some (p ++ pyPartition items group_field k)
        | none =>
          if pyPartition items group_field k = [] then none
          else some (pyPartition items group_field k) := by
  induction items with
  | nil =>
    intro acc k
    simp only [List.foldl_nil, pyPartition, List.filter_nil]
    cases groupsLookup acc k <;> simp
  | cons r rest ih =>
    intro acc k
    simp only [List.foldl_cons]
    rw [ih]
    unfold groupStep
    cases hk : rowGet r group_field with
    | none =>
      have hpart : pyPartition (r :: rest) group_field k = pyPartition rest group_field k := by
        simp [pyPartition, List.filter_cons, keyOfRow?, hk]
      rw [hpart]
    | some v =>
      rw [groupsLookup_addToGroups]
      by_cases hkey : k = pyStr v
      · have hpart : pyPartition (r :: rest) group_field k =
            r :: pyPartition rest group_field k := by
          simp [pyPartition, List.filter_cons, keyOfRow?, hk, hkey]
        rw [hpart, if_pos hkey, ← hkey]
        cases hacc : groupsLookup acc k with
        | none => simp
        | some p => simp [List.append_assoc]
      · have h2 : ¬ pyStr v = k := fun hh => hkey hh.symm
        have hpart : pyPartition (r :: rest) group_field k =
            pyPartition rest group_field k := by
          simp [pyPartition, List.filter_cons, keyOfRow?, hk, h2]
        rw [hpart, if_neg hkey]

theorem keys_addToGroups (acc : List (String × List Row)) (k : String) (r : Row) :
    (addToGroups acc k r).map Prod.fst =
      if k ∈ acc.map Prod.fst then acc.map Prod.fst else acc.map Prod.fst ++ [k] := by
  induction acc with
  | nil => simp [addToGroups]
  | cons g rest ih =>
    simp only [addToGroups]
    by_cases hgk : g.1 = k
    · simp [hgk]
    · have h2 : ¬ k = g.1 := fun hh => hgk hh.symm
      by_cases hm : k ∈ rest.map Prod.fst <;> simp [hgk, h2, hm, ih]

theorem nodup_keys_addToGroups (acc : List (String × List Row)) (k : String) (r : Row)
    (h : (acc.map Prod.fst).Nodup) : ((addToGroups acc k r).map Prod.fst).Nodup := by
  rw [keys_addToGroups]
  by_cases hm : k ∈ acc.map Prod.fst
  · simpa [hm]
  · simp only [hm, if_false]
    rw [List.nodup_append]
    refine ⟨h, List.nodup_singleton k, ?_⟩
    intro a ha hak
    rcases List.mem_singleton.mp hak with rfl
    exact hm ha

theorem buildGroups_keys_nodup (items : List Row) (gf : String) :
    ((buildGroups items gf).map Prod.fst).Nodup := by
  suffices h : ∀ acc, (List.map Prod.fst acc).Nodup →
      ((items.foldl (groupStep gf) acc).map Prod.fst).Nodup by
    exact h [] (by simp)
  induction items with
  | nil => intro acc h; simpa
  | cons r rest ih =>
    intro acc h
    simp only [List.foldl_cons]
    apply ih
    unfold groupStep
    cases hk : rowGet r gf with
    | none => exact h
    | some v => exact nodup_keys_addToGroups acc (pyStr v) r h

theorem groupsLookup_isSome_iff (l : List (String × List Row)) (k : String) :
    (groupsLookup l k).isSome ↔ k ∈ l.map Prod.fst := by
  induction l with
  | nil => simp [groupsLookup]
  | cons g rest ih =>
    by_cases h : g.1 = k
    · simp [groupsLookup, h]
    · have h2 : ¬ k = g.1 := fun hh => h hh.symm
      simp [groupsLookup, h, h2, ih]

theorem groupsLookup_of_mem (l : List (String × List Row))
    (h : (l.map Prod.fst).Nodup) : ∀ g ∈ l, groupsLookup l g.1 = some g.2 := by
  induction l with
  | nil => intro g hg; cases hg
  | cons a rest ih =>
    rw [List.map_cons, List.nodup_cons] at h
    intro g hg
    rcases List.mem_cons.mp hg with rfl | hg'
    · simp [groupsLookup]
    · have hne : ¬ a.1 = g.1 := by
        intro hh
        exact h.1 (hh ▸ List.mem_map_of_mem Prod.fst hg')
      simp [groupsLookup, hne, ih h.2 g hg']

theorem buildGroups_lookup (items : List Row) (gf : String) (k : String) :
    groupsLookup (buildGroups items gf) k =
      if pyPartition items gf k = [] then none else some (pyPartition items gf k) := by
  have h := foldl_groupStep_lookup gf items [] k
  simpa [buildGroups, groupsLookup] using h

theorem buildGroups_mem (items : List Row) (gf : String) :
    ∀ g ∈ buildGroups items gf,
      g.2 = pyPartition items gf g.1 ∧ pyPartition items gf g.1 ≠ [] := by
  intro g hg
  have hl := groupsLookup_of_mem _ (buildGroups_keys_nodup items gf) g hg
  rw [buildGroups_lookup] at hl
  by_cases hp : pyPartition items gf g.1 = []
  · rw [if_pos hp] at hl; cases hl
  · rw [if_neg hp] at hl
    injection hl with hh
    exact ⟨hh.symm, hp⟩

theorem buildGroups_keys_iff (items : List Row) (gf : String) (k : String) :
    k ∈ (buildGroups items gf).map Prod.fst ↔ pyPartition items gf k ≠ [] := by
  rw [← groupsLookup_isSome_iff, buildGroups_lookup]
  by_cases hp : pyPartition items gf k = [] <;> simp [hp]

theorem process_aggregation_avg_eval :
    process_aggregation
      [[("x", Value.num 10)], [("x", Value.num 20)], [("x", Value.str "bad")]]
      "avg" (some "x") = ⟨15, 2⟩ := by
  have hv : List.filterMap (fun item => (rowGet item "x").bind pyFloat?)
      [[("x", Value.num 10)], [("x", Value.num 20)], [("x", Value.str "bad")]]
      = [(10 : ℚ), 20] := by decide
  have h1 : pyLower "avg" = "avg" := by decide
  simp only [process_aggregation, hv, h1]
  norm_num
  rw [if_neg (by decide : ¬("avg" : String) = "count"),
    if_neg (by decide : ¬("x" : String) = ""),
    if_neg (by decide : ¬("avg" : String) = "sum")]

/-- C5: `process_aggregation` returns `{result: n, count: n}` for type
`count` regardless of `field` (`n` the row count); for sum/avg/max/min it
reduces exactly the list of float-coercible values of `field` — rows whose
field is absent or non-numeric are silently discarded, never raised on and
never treated as zero — returning `{result: 0, count: 0}` when no numeric
value survives; avg over `[{x:10},{x:20},{x:"bad"}]` yields
`{result: 15.0, count: 2}`; any other type string returns the
surviving-value count as the result. -/
theorem process_aggregation_spec (items : List Row) (aggregation_type : String)
    (f : String) (hf : f ≠ "") :
    (pyLower aggregation_type = "count" →
      ∀ field, process_aggregation items aggregation_type field
        = ⟨items.length, items.length⟩) ∧
    (pyLower aggregation_type ≠ "count" →
      (items.filterMap (fun item => (rowGet item f).bind pyFloat?) = [] →
        process_aggregation items aggregation_type (some f) = ⟨0, 0⟩) ∧
      (∀ values, items.filterMap (fun item => (rowGet item f).bind pyFloat?) = values →
        values ≠ [] →
        (pyLower aggregation_type = "sum" →
          process_aggregation items aggregation_type (some f)
            = ⟨values.sum, values.length⟩) ∧
        (pyLower aggregation_type = "avg" →
          process_aggregation items aggregation_type (some f)
            = ⟨values.sum / (values.length : ℚ), values.length⟩) ∧
        (pyLower aggregation_type = "max" →
          process_aggregation items aggregation_type (some f)
            = ⟨values.foldl max (values.headD 0), values.length⟩) ∧
        (pyLower aggregation_type = "min" →
          process_aggregation items aggregation_type (some f)
            = ⟨values.foldl min (values.headD 0), values.length⟩) ∧
        (pyLower aggregation_type ≠ "sum" → pyLower aggregation_type ≠ "avg" →
          pyLower aggregation_type ≠ "max" → pyLower aggregation_type ≠ "min" →
          process_aggregation items aggregation_type (some f)
            = ⟨values.length, values.length⟩))) ∧
    process_aggregation
      [[("x", Value.num 10)], [("x", Value.num 20)], [("x", Value.str "bad")]]
      "avg" (some "x") = ⟨15, 2⟩ := by
  refine ⟨?_, ?_, process_aggregation_avg_eval⟩
  · intro hcount field
    cases items <;> simp [process_aggregation, hcount]
  · intro hnc
    constructor
    · intro hvals
      cases hitems : items with
      | nil => simp [process_aggregation]
      | cons a l =>
        rw [hitems] at hvals
        simp [process_aggregation, hnc, hf, hvals]
    · intro values hveq hvne
      cases hitems : items with
      | nil =>
        rw [hitems] at hveq
        exact absurd hveq.symm hvne
      | cons a l =>
        rw [hitems] at hveq
        have hvfalse : values.isEmpty = false := by
          cases values with
          | nil => exact absurd rfl hvne
          | cons v vs => rfl
        refine ⟨?_, ?_, ?_, ?_, ?_⟩
        · intro ht; simp [process_aggregation, hnc, hf, hveq, hvfalse, ht]
        · intro ht; simp [process_aggregation, hnc, hf, hveq, hvfalse, ht]
        · intro ht; simp [process_aggregation, hnc, hf, hveq, hvfalse, ht]
        · intro ht; simp [process_aggregation, hnc, hf, hveq, hvfalse, ht]
        · intro h1 h2 h3 h4
          simp [process_aggregation, hnc, hf, hveq, hvfalse, h1, h2, h3, h4]

theorem process_aggregation_spec_witness :
    ("x" : String) ≠ "" ∧
    process_aggregation
      [[("x", Value.num 10)], [("x", Value.num 20)], [("x", Value.str "bad")]]
      "avg" (some "x") = ⟨15, 2⟩ :=
  ⟨by decide, (process_aggregation_spec [] "avg" "x" (by decide)).2.2⟩

/-- C8: when `error` is already set, `retrieve_context`, `generate_query`
and `analyze_results` each return the state unchanged — every field intact
and nothing appended to `steps_completed`. -/
theorem error_short_circuit (env : Env) (s : WorkflowState) (h : s.error.isSome) :
    retrieve_context env s = s ∧ generate_query env s = s ∧ analyze_results env s = s := by
  refine ⟨?_, ?_, ?_⟩ <;>
    simp [retrieve_context, generate_query, analyze_results, h]

theorem error_short_circuit_witness :
    erroredState.error.isSome ∧
    (retrieve_context baseEnv erroredState = erroredState ∧
     generate_query baseEnv erroredState = erroredState ∧
     analyze_results baseEnv erroredState = erroredState) :=
  ⟨by decide, error_short_circuit baseEnv erroredState (by decide)⟩

/-- C9: on a completion fault (modelled as `none`, per spec §4.4 —
`bedrock_client.py` is absent from the snapshot) or on a JSON-parse failure
of the fence-stripped completion text, query generation returns the
deterministic fallback descriptor — operation `"scan"`, target the
`sales_transactions` fact table, non-empty explanation — and the workflow
generation stage never sets `error` and always stores a descriptor. -/
theorem generate_query_fallback (env : Env) (q : String)
    (schemas : List (String × TableInfo)) (s : WorkflowState) (hs : s.error = none) :
    ((env.invoke_bedrock_model (nosqlPrompt q schemas) = none →
        NoSQLGenerator_generate_query env q schemas = fallback_query q) ∧
     (∀ text, env.invoke_bedrock_model (nosqlPrompt q schemas) = some text →
        env.parseJson (stripCodeFences (pyStrip text)) = none →
        NoSQLGenerator_generate_query env q schemas = fallback_query q) ∧
     rowGet (fallback_query q) "operation" = some (Value.str "scan") ∧
     rowGet (fallback_query q) "table_name" = some (Value.str "sales_transactions") ∧
     rowGet (fallback_query q) "explanation"
       = some (Value.str "Scanning denormalized sales transactions table for analysis") ∧
     "Scanning denormalized sales transactions table for analysis" ≠ "") ∧
    ((generate_query env s).error = none ∧
     (generate_query env s).generated_query.isSome) := by
  refine ⟨⟨?_, ?_, rfl, rfl, rfl, by decide⟩, ?_⟩
  · intro h
    simp [NoSQLGenerator_generate_query, h]
  · intro text h hp
    simp [NoSQLGenerator_generate_query, h, hp]
  · have hs' : s.error.isSome = false := by simp [hs]
    constructor <;> simp [generate_query, hs', hs]

theorem generate_query_fallback_witness :
    (initState "q").error = none ∧
    ((generate_query baseEnv (initState "q")).error = none ∧
     (generate_query baseEnv (initState "q")).generated_query.isSome) :=
  ⟨rfl, (generate_query_fallback baseEnv "q" [] (initState "q") rfl).2⟩

/-- C10: `dynamodb_connector.execute_query` never raises — a missing/falsy
table name, an operation other than scan/query, and a data-plane fault are
all caught and yield `[]` (so an adapter fault is indistinguishable from a
query matching zero items, which also yields `[]`); a successful scan
returns the Decimal-converted items. -/
theorem dynamodb_execute_query_spec (db : DynamoDBStore) (qd : Row) :
    (∀ e, dynamodb_execute_query_core db qd = Except.error e →
      dynamodb_execute_query db qd = []) ∧
    (rowGet qd "table_name" = none → dynamodb_execute_query db qd = []) ∧
    (∀ tn, rowGet qd "table_name" = some tn → pyTruthy tn = false →
      dynamodb_execute_query db qd = []) ∧
    (∀ tn, rowGet qd "table_name" = some tn → pyTruthy tn = true →
      ((rowGet qd "operation").getD (Value.str "scan") ≠ Value.str "scan" →
        (rowGet qd "operation").getD (Value.str "scan") ≠ Value.str "query" →
        dynamodb_execute_query db qd = []) ∧
      ((rowGet qd "operation").getD (Value.str "scan") = Value.str "scan" →
        (∀ e, db.scan (pyStr tn) = Except.error e → dynamodb_execute_query db qd = []) ∧
        (∀ items, db.scan (pyStr tn) = Except.ok items →
          dynamodb_execute_query db qd = items.map convert_decimals_item))) := by
  refine ⟨?_, ?_, ?_, ?_⟩
  · intro e he
    simp [dynamodb_execute_query, he]
  · intro h
    simp [dynamodb_execute_query, dynamodb_execute_query_core, h]
  · intro tn h ht
    simp [dynamodb_execute_query, dynamodb_execute_query_core, h, ht]
  · intro tn h ht
    constructor
    · intro hop1 hop2
      simp [dynamodb_execute_query, dynamodb_execute_query_core, h, ht, hop1, hop2]
    · intro hop
      constructor
      · intro e he
        simp [dynamodb_execute_query, dynamodb_execute_query_core, h, ht, hop, he]
      · intro items hi
        simp [dynamodb_execute_query, dynamodb_execute_query_core, h, ht, hop, hi]

theorem dynamodb_execute_query_spec_witness :
    rowGet ([] : Row) "table_name" = none ∧ dynamodb_execute_query downStore [] = [] :=
  ⟨rfl, (dynamodb_execute_query_spec downStore []).2.1 rfl⟩

/-- C7 counterexample: on a successful similarity search that returns zero
documents, `retrieve_context` appends TWO labels —
`"retrieve_context"` and `"fallback_context"` — to `steps_completed`,
not exactly one as the claim states. -/
theorem retrieve_context_two_labels :
    (retrieve_context emptyIndexEnv (initState "q")).steps_completed
      = ["retrieve_context", "fallback_context"] ∧
    (initState "q").steps_completed = [] := by
  constructor <;> rfl

/-- C7 amended: every executed stage appends its own name, or its name
suffixed `_error`, exactly once — except `retrieve_context`, which on a
successful search with zero results appends the two labels
`"retrieve_context"` and `"fallback_context"`.  (In this model
`generate_query` cannot fail, so its executed form always appends its
success label.) -/
theorem steps_append_spec (env : Env) (s : WorkflowState) :
    (∃ l, (understand_query env s).steps_completed = s.steps_completed ++ [l] ∧
      (l = "understand_query" ∨ l = "understand_query_error")) ∧
    (s.error = none →
      ((∃ l, (retrieve_context env s).steps_completed = s.steps_completed ++ [l] ∧
          (l = "retrieve_context" ∨ l = "retrieve_context_error")) ∨
       (retrieve_context env s).steps_completed
         = s.steps_completed ++ ["retrieve_context", "fallback_context"])) ∧
    (s.error = none →
      (generate_query env s).steps_completed = s.steps_completed ++ ["generate_query"]) ∧
    (s.error = none →
      ∃ l, (analyze_results env s).steps_completed = s.steps_completed ++ [l] ∧
        (l = "analyze_results" ∨ l = "analyze_results_error")) ∧
    (handle_error env s).steps_completed = s.steps_completed ++ ["handle_error"] := by
  refine ⟨?_, ?_, ?_, ?_, ?_⟩
  · unfold understand_query
    cases env.invoke_model (understandPrompt s.query) with
    | ok response => exact ⟨"understand_query", by simp, Or.inl rfl⟩
    | error e => exact ⟨"understand_query_error", by simp, Or.inr rfl⟩
  · intro h
    have h' : s.error.isSome = false := by simp [h]
    unfold retrieve_context
    rw [h']
    simp only [Bool.false_eq_true, if_false]
    cases env.similarity_search s.query 5 with
    | ok docs =>
      by_cases hd : docs.isEmpty
      · right; simp [hd]
      · left; exact ⟨"retrieve_context", by simp [hd], Or.inl rfl⟩
    | error e => left; exact ⟨"retrieve_context_error", by simp, Or.inr rfl⟩
  · intro h
    have h' : s.error.isSome = false := by simp [h]
    unfold generate_query
    rw [h']
    simp
  · intro h
    have h' : s.error.isSome = false := by simp [h]
    unfold analyze_results
    rw [h']
    simp only [Bool.false_eq_true, if_false]
    by_cases hr : (s.query_results.getD []).isEmpty
    · exact ⟨"analyze_results", by simp [hr], Or.inl rfl⟩
    · simp only [hr, Bool.false_eq_true, if_false]
      cases env.invoke_model
          (analyzePrompt s.query (s.generated_query.getD []) (s.query_results.getD [])) with
      | ok a => exact ⟨"analyze_results", by simp, Or.inl rfl⟩
      | error e => exact ⟨"analyze_results_error", by simp, Or.inr rfl⟩
  · unfold handle_error
    simp

theorem steps_append_spec_witness :
    (initState "q").error = none ∧
    (generate_query baseEnv (initState "q")).steps_completed
      = (initState "q").steps_completed ++ ["generate_query"] :=
  ⟨rfl, (steps_append_spec baseEnv (initState "q")).2.2.1 rfl⟩

/-- C3 counterexample: one row whose aggregation field is non-numeric.  The
partition for key "A" has exactly one member, but the emitted `count` is 0
(the surviving-numeric count), not 1 (the member count the claim states). -/
theorem group_by_field_count_counterexample :
    group_by_field [[("g", Value.str "A"), ("x", Value.str "bad")]] "g" (some "x") "sum"
      = [[("g", Value.str "A"), ("sum_x", Value.num 0), ("count", Value.num 0)]] ∧
    (pyPartition [[("g", Value.str "A"), ("x", Value.str "bad")]] "g" "A").length = 1 := by
  constructor
  · decide
  · decide

/-- C3 amended: `group_by_field` partitions exactly the rows containing
`group_field`, keyed by the string value of that field (rows missing the
field appear in no group); it emits, up to the final sort, exactly one row
per non-empty partition of the form
`{groupField: key, "{aggType}_{aggField-or-items}": result, count: c}`
where `(result, c)` is `process_aggregation` of the partition — so `c` is
the partition size for type `count` but the surviving-numeric-value count
for sum/avg/max/min, not always the member count. -/
theorem group_by_field_partition_spec (items : List Row) (gf : String)
    (af : Option String) (aty : String) :
    ∃ ks : List String, ks.Nodup ∧
      (∀ k, k ∈ ks ↔ pyPartition items gf k ≠ []) ∧
      List.Perm (group_by_field items gf af aty)
        (ks.map (fun k => specGroupOutputRow gf af aty k items)) := by
  refine ⟨(buildGroups items gf).map Prod.fst, buildGroups_keys_nodup items gf, ?_, ?_⟩
  · intro k
    exact buildGroups_keys_iff items gf k
  · have hmap : emitGroupRows items gf af aty
        = ((buildGroups items gf).map Prod.fst).map
            (fun k => specGroupOutputRow gf af aty k items) := by
      rw [List.map_map]
      apply List.map_congr_left
      intro g hg
      obtain ⟨hpart, _⟩ := buildGroups_mem items gf g hg
      show emitGroupRow gf af aty g.1 g.2 = specGroupOutputRow gf af aty g.1 items
      rw [hpart]
      rfl
    rw [← hmap]
    exact sortDesc_perm (sortKeyOf (aggResultKey aty af)) (emitGroupRows items gf af aty)

/-- C6: `group_by_field` output is sorted by the emitted aggregated value
descending, and for any value `c` the rows carrying that aggregated value
appear in exactly their group-emission order (the sort is stable). -/
theorem group_by_field_sorted_stable (items : List Row) (gf : String)
    (af : Option String) (aty : String) :
    List.Pairwise
      (fun a b => sortKeyOf (aggResultKey aty af) b ≤ sortKeyOf (aggResultKey aty af) a)
      (group_by_field items gf af aty) ∧
    ∀ c : ℚ,
      (group_by_field items gf af aty).filter
        (fun r => sortKeyOf (aggResultKey aty af) r == c)
      = (emitGroupRows items gf af aty).filter
        (fun r => sortKeyOf (aggResultKey aty af) r == c) :=
  ⟨sortDesc_pairwise _ _, fun c => sortDesc_filter _ _ c⟩

theorem take10_length_le {α : Type} (l : List α) : (l.take 10).length ≤ 10 := by
  simp [List.length_take]

/-- C4 counterexample: query "highest price" with a first row lacking
`unit_price`.  The claim requires an unconditional descending sort by
`unit_price` (which would put the `unit_price: 5` row first); the code only
sorts when the FIRST row contains `unit_price`, so it falls through and
returns the rows unmodified. -/
theorem dispatch_price_guard_counterexample :
    processAggregationDispatch
      [[("name", Value.str "a")], [("unit_price", Value.num 5)]] "highest price"
      = Except.ok [[("name", Value.str "a")], [("unit_price", Value.num 5)]] ∧
    ([("name", Value.str "a")] : Row) ≠ [("unit_price", Value.num 5)] := by
  constructor
  · rfl
  · decide

/-- C4 amended: the dispatch table of `_process_aggregation`, first match
wins, with rule 4 corrected: the price sort runs only when the result list
is non-empty AND its first row contains `unit_price` (otherwise control
falls through to returning the first 10 rows unmodified), and it faults
(raising out of the dispatch, to `execute`'s catch) when a present
`unit_price` fails float coercion; in every non-faulting case at most 10
rows are returned. -/
theorem processAggregationDispatch_spec (results : List Row) (query : String) :
    (∀ out, processAggregationDispatch results query = Except.ok out →
      out.length ≤ 10) ∧
    ((strContainsSub (pyLower query) "product"
        && strContainsSub (pyLower query) "revenue") = true →
      processAggregationDispatch results query
        = Except.ok ((group_by_field results "product_name" (some "line_total") "sum").take 10)) ∧
    ((strContainsSub (pyLower query) "product"
        && strContainsSub (pyLower query) "revenue") = false →
     (strContainsSub (pyLower query) "customer"
        && (strContainsSub (pyLower query) "order value"
            || strContainsSub (pyLower query) "total")) = true →
      processAggregationDispatch results query
        = Except.ok ((group_by_field results "customer_name" (some "line_total") "sum").take 10)) ∧
    ((strContainsSub (pyLower query) "product"
        && strContainsSub (pyLower query) "revenue") = false →
     (strContainsSub (pyLower query) "customer"
        && (strContainsSub (pyLower query) "order value"
            || strContainsSub (pyLower query) "total")) = false →
     (strContainsSub (pyLower query) "count"
        && strContainsSub (pyLower query) "country") = true →
      processAggregationDispatch results query
        = Except.ok ((group_by_field results "customer_country" none "count").take 10)) ∧
    ((strContainsSub (pyLower query) "product"
        && strContainsSub (pyLower query) "revenue") = false →
     (strContainsSub (pyLower query) "customer"
        && (strContainsSub (pyLower query) "order value"
            || strContainsSub (pyLower query) "total")) = false →
     (strContainsSub (pyLower query) "count"
        && strContainsSub (pyLower query) "country") = false →
     (strContainsSub (pyLower query) "price"
        && (strContainsSub (pyLower query) "highest"
            || strContainsSub (pyLower query) "expensive")) = true →
      (results = [] → processAggregationDispatch results query = Except.ok []) ∧
      (∀ r0 rs, results = r0 :: rs → rowGet r0 "unit_price" = none →
        processAggregationDispatch results query = Except.ok (results.take 10)) ∧
      (∀ r0 rs, results = r0 :: rs → (rowGet r0 "unit_price").isSome = true →
        (∀ keyed, unitPriceKeyed? results = some keyed →
          processAggregationDispatch results query
            = Except.ok (((sortDesc (fun p => p.1) keyed).map (fun p => p.2)).take 10)) ∧
        (unitPriceKeyed? results = none →
          processAggregationDispatch results query
            = Except.error "could not convert string to float"))) ∧
    ((strContainsSub (pyLower query) "product"
        && strContainsSub (pyLower query) "revenue") = false →
     (strContainsSub (pyLower query) "customer"
        && (strContainsSub (pyLower query) "order value"
            || strContainsSub (pyLower query) "total")) = false →
     (strContainsSub (pyLower query) "count"
        && strContainsSub (pyLower query) "country") = false →
     (strContainsSub (pyLower query) "price"
        && (strContainsSub (pyLower query) "highest"
            || strContainsSub (pyLower query) "expensive")) = false →
      processAggregationDispatch results query = Except.ok (results.take 10)) := by
  refine ⟨?_, ?_, ?_, ?_, ?_, ?_⟩
  · intro out hout
    unfold processAggregationDispatch at hout
    dsimp only at hout
    split_ifs at hout with h1 h2 h3 h4
    · injection hout with h; rw [← h]; exact take10_length_le _
    · injection hout with h; rw [← h]; exact take10_length_le _
    · injection hout with h; rw [← h]; exact take10_length_le _
    · cases results with
      | nil =>
        dsimp only at hout
        injection hout with h; rw [← h]; exact Nat.le_of_lt (by norm_num)
      | cons r0 rs =>
        dsimp only at hout
        by_cases hup : (rowGet r0 "unit_price").isSome
        · rw [if_pos hup] at hout
          cases hk : unitPriceKeyed? (r0 :: rs) with
          | none => rw [hk] at hout; cases hout
          | some keyed =>
            rw [hk] at hout
            injection hout with h; rw [← h]; exact take10_length_le _
        · rw [if_neg hup] at hout
          injection hout with h; rw [← h]; exact take10_length_le _
    · injection hout with h; rw [← h]; exact take10_length_le _
  · intro h1
    simp only [processAggregationDispatch, h1, if_true]
  · intro h1 h2
    simp only [processAggregationDispatch, h1, h2, Bool.false_eq_true, if_false, if_true]
  · intro h1 h2 h3
    simp only [processAggregationDispatch, h1, h2, h3, Bool.false_eq_true, if_false, if_true]
  · intro h1 h2 h3 h4
    refine ⟨?_, ?_, ?_⟩
    · intro hres
      subst hres
      simp only [processAggregationDispatch, h1, h2, h3, h4, Bool.false_eq_true, if_false,
        if_true]
    · intro r0 rs hres hup
      subst hres
      simp only [processAggregationDispatch, h1, h2, h3, h4, Bool.false_eq_true, if_false,
        if_true, hup, Option.isSome_none]
    · intro r0 rs hres hup
      subst hres
      constructor
      · intro keyed hk
        simp only [processAggregationDispatch, h1, h2, h3, h4, Bool.false_eq_true, if_false,
          if_true, hup, hk]
      · intro hk
        simp only [processAggregationDispatch, h1, h2, h3, h4, Bool.false_eq_true, if_false,
          if_true, hup, hk]
  · intro h1 h2 h3 h4
    cases results with
    | nil =>
      simp only [processAggregationDispatch, h1, h2, h3, h4, Bool.false_eq_true, if_false,
        List.take_nil]
    | cons r0 rs =>
      simp only [processAggregationDispatch, h1, h2, h3, h4, Bool.false_eq_true, if_false]

theorem processAggregationDispatch_spec_witness :
    (strContainsSub (pyLower "customer total") "product"
      && strContainsSub (pyLower "customer total") "revenue") = false ∧
    (strContainsSub (pyLower "customer total") "customer"
      && (strContainsSub (pyLower "customer total") "order value"
          || strContainsSub (pyLower "customer total") "total")) = true ∧
    processAggregationDispatch [] "customer total"
      = Except.ok ((group_by_field [] "customer_name" (some "line_total") "sum").take 10) :=
  ⟨by decide, by decide,
    (processAggregationDispatch_spec [] "customer total").2.2.1 (by decide) (by decide)⟩

theorem dropWhile_append_cons_ne_nil {w : Char → Bool} {c : Char} (h : w c = false)
    (xs ys : List Char) : List.dropWhile w (xs ++ c :: ys) ≠ [] := by
  induction xs with
  | nil => simp [List.dropWhile_cons, h]
  | cons a t ih =>
    rw [List.cons_append, List.dropWhile_cons]
    by_cases ha : w a = true
    · simpa [ha] using ih
    · simp [ha]

theorem staticErrorMessage_strip_ne_empty (err : String) :
    pyStrip (staticErrorMessage err) ≠ "" := by
  intro h
  have hl := congrArg String.data h
  simp only [pyStrip] at hl
  rw [List.reverse_eq_nil_iff] at hl
  have hs : (staticErrorMessage err).toList
      = 'S' :: ("orry, an error occurred: ".toList ++ err.toList
          ++ ". Please try rephrasing your question.".toList) := by
    show (("Sorry, an error occurred: " ++ err) ++ ". Please try rephrasing your question.").data
      = _
    rw [String.data_append, String.data_append]
    rw [show ("Sorry, an error occurred: " : String).data
        = 'S' :: ("orry, an error occurred: " : String).data from by decide]
    simp
  rw [hs, List.dropWhile_cons] at hl
  rw [if_neg (by decide : ¬ isPyWs 'S' = true)] at hl
  rw [List.reverse_cons] at hl
  exact dropWhile_append_cons_ne_nil (by decide) _ [] hl

theorem understand_query_fields (env : Env) (s : WorkflowState) :
    (understand_query env s).query = s.query ∧
    (understand_query env s).analysis = s.analysis ∧
    (understand_query env s).friendly_error = s.friendly_error := by
  unfold understand_query
  cases env.invoke_model (understandPrompt s.query) <;> simp

theorem retrieve_context_fields (env : Env) (s : WorkflowState) :
    (retrieve_context env s).query = s.query ∧
    (retrieve_context env s).analysis = s.analysis ∧
    (retrieve_context env s).friendly_error = s.friendly_error := by
  unfold retrieve_context
  by_cases h : s.error.isSome
  · simp [h]
  · cases hs : env.similarity_search s.query 5 with
    | ok docs => by_cases hd : docs.isEmpty <;> simp [h, hs, hd]
    | error e => simp [h, hs]

theorem generate_query_fields (env : Env) (s : WorkflowState) :
    (generate_query env s).query = s.query ∧
    (generate_query env s).analysis = s.analysis ∧
    (generate_query env s).friendly_error = s.friendly_error ∧
    (generate_query env s).error = s.error := by
  unfold generate_query
  by_cases h : s.error.isSome <;> simp [h]

theorem generate_query_sets (env : Env) (s : WorkflowState) (h : s.error = none) :
    (generate_query env s).generated_query.isSome ∧ (generate_query env s).error = none := by
  have h' : s.error.isSome = false := by simp [h]
  unfold generate_query
  rw [h']
  simp [h]

theorem handle_error_fields (env : Env) (s : WorkflowState) :
    (handle_error env s).friendly_error.isSome ∧
    (handle_error env s).analysis = s.analysis ∧
    (handle_error env s).error = s.error := by
  unfold handle_error
  simp

theorem handle_error_value (env : Env) (s : WorkflowState) (err : String)
    (he : s.error = some err) :
    (handle_error env s).friendly_error =
      some (match env.invoke_model (handleErrorPrompt s.query err) with
            | Except.ok msg => pyStrip msg
            | Except.error _ => pyStrip (staticErrorMessage err)) := by
  unfold handle_error
  rw [he]
  cases hm : env.invoke_model (handleErrorPrompt s.query err) <;> simp [hm]

theorem analyze_results_cases (env : Env) (s : WorkflowState) (h : s.error = none) :
    ((analyze_results env s).analysis.isSome ∧ (analyze_results env s).error = none ∧
      (analyze_results env s).friendly_error = s.friendly_error) ∨
    ((analyze_results env s).analysis = s.analysis ∧ (analyze_results env s).error.isSome ∧
      (analyze_results env s).friendly_error = s.friendly_error) := by
  have h' : s.error.isSome = false := by simp [h]
  unfold analyze_results
  rw [h']
  simp only [Bool.false_eq_true, if_false]
  by_cases hr : (s.query_results.getD []).isEmpty
  · left; simp [hr, h]
  · simp only [hr, Bool.false_eq_true, if_false]
    cases hm : env.invoke_model
        (analyzePrompt s.query (s.generated_query.getD []) (s.query_results.getD [])) with
    | ok a => left; simp [hm, h]
    | error e => right; simp [hm]

theorem afterUnderstand_base (env : Env) (q : String) :
    (afterUnderstand env q).query = q ∧ (afterUnderstand env q).analysis = none ∧
    (afterUnderstand env q).friendly_error = none := by
  obtain ⟨h1, h2, h3⟩ := understand_query_fields env (initState q)
  exact ⟨h1, h2, h3⟩

theorem afterRetrieve_base (env : Env) (q : String) :
    (afterRetrieve env q).query = q ∧ (afterRetrieve env q).analysis = none ∧
    (afterRetrieve env q).friendly_error = none := by
  unfold afterRetrieve
  obtain ⟨h1, h2, h3⟩ := afterUnderstand_base env q
  obtain ⟨r1, r2, r3⟩ := retrieve_context_fields env (afterUnderstand env q)
  split
  · exact ⟨r1.trans h1, r2.trans h2, r3.trans h3⟩
  · exact ⟨h1, h2, h3⟩

theorem preAdapterState_base (env : Env) (q : String) :
    (preAdapterState env q).query = q ∧ (preAdapterState env q).analysis = none ∧
    (preAdapterState env q).friendly_error = none ∧
    ((preAdapterState env q).error = none →
      (preAdapterState env q).generated_query.isSome) := by
  unfold preAdapterState
  obtain ⟨h1, h2, h3⟩ := afterRetrieve_base env q
  obtain ⟨g1, g2, g3, g4⟩ := generate_query_fields env (afterRetrieve env q)
  split
  · rename_i hcond
    refine ⟨g1.trans h1, g2.trans h2, g3.trans h3, fun _ => ?_⟩
    exact (generate_query_sets env _ (Option.isNone_iff_eq_none.mp hcond)).1
  · rename_i hcond
    refine ⟨h1, h2, h3, fun he => ?_⟩
    exact absurd (Option.isNone_iff_eq_none.mpr he) hcond

theorem execute_eq_adapterPhase (env : Env) (q : String)
    (f : Row → Except String (List Row)) (qd : Row)
    (hqd : (preAdapterState env q).generated_query = some qd)
    (herr : (preAdapterState env q).error = none) :
    execute env q (some f) = executeAdapterPhase env (preAdapterState env q) qd f := by
  unfold execute
  dsimp only
  rw [hqd, herr]

theorem execute_eq_handle_of_error (env : Env) (q : String)
    (f? : Option (Row → Except String (List Row))) (e : String)
    (herr : (preAdapterState env q).error = some e) :
    execute env q f? = handle_error env (preAdapterState env q) := by
  unfold execute
  dsimp only
  rw [herr]
  cases (preAdapterState env q).generated_query <;> cases f? <;> simp [herr]

/-- C2 amended: a faulting executor adapter call (reached with a generated
descriptor and no prior error) sets `error` and sets `friendly_error` — to
the stripped completion rewrite when that call succeeds (which may be the
empty string if the completion returns only whitespace), or to the static
template "Sorry, an error occurred: {error}. Please try rephrasing your
question." (non-empty) when that call itself faults — and no exception
escapes `execute` (totality of the model). -/
theorem adapter_fault_handled (env : Env) (q : String)
    (f : Row → Except String (List Row)) (qd : Row) (e : String)
    (hqd : (preAdapterState env q).generated_query = some qd)
    (herr : (preAdapterState env q).error = none)
    (hf : f qd = Except.error e) :
    (execute env q (some f)).error = some ("Error executing DynamoDB query: " ++ e) ∧
    ∃ msg, (execute env q (some f)).friendly_error = some msg ∧
      ((∃ raw, env.invoke_model
          (handleErrorPrompt q ("Error executing DynamoDB query: " ++ e)) = Except.ok raw ∧
          msg = pyStrip raw) ∨
       (∃ fe, env.invoke_model
          (handleErrorPrompt q ("Error executing DynamoDB query: " ++ e)) = Except.error fe ∧
          msg = pyStrip (staticErrorMessage ("Error executing DynamoDB query: " ++ e)) ∧
          msg ≠ "")) := by
  rw [execute_eq_adapterPhase env q f qd hqd herr]
  unfold executeAdapterPhase
  rw [hf]
  have hsq : ({ preAdapterState env q with
      error := some ("Error executing DynamoDB query: " ++ e) } : WorkflowState).query = q := by
    simp [(preAdapterState_base env q).1]
  constructor
  · rw [(handle_error_fields env _).2.2]
  · have hv := handle_error_value env
      { preAdapterState env q with error := some ("Error executing DynamoDB query: " ++ e) }
      ("Error executing DynamoDB query: " ++ e) (by simp)
    rw [hsq] at hv
    cases hm : env.invoke_model
        (handleErrorPrompt q ("Error executing DynamoDB query: " ++ e)) with
    | ok raw =>
      refine ⟨pyStrip raw, ?_, Or.inl ⟨raw, rfl, rfl⟩⟩
      rw [hv, hm]
    | error fe =>
      refine ⟨pyStrip (staticErrorMessage ("Error executing DynamoDB query: " ++ e)), ?_,
        Or.inr ⟨fe, rfl, rfl, staticErrorMessage_strip_ne_empty _⟩⟩
      rw [hv, hm]

theorem adapter_fault_handled_witness :
    (preAdapterState baseEnv "q").generated_query = some (fallback_query "q") ∧
    (preAdapterState baseEnv "q").error = none ∧
    failingAdapter (fallback_query "q") = Except.error "boom" ∧
    (execute baseEnv "q" (some failingAdapter)).error
      = some ("Error executing DynamoDB query: " ++ "boom") :=
  ⟨rfl, rfl, rfl,
    (adapter_fault_handled baseEnv "q" failingAdapter (fallback_query "q") "boom"
      rfl rfl rfl).1⟩

/-- C2 counterexample: the adapter faults and the error-handling completion
call succeeds but returns the empty string, so `friendly_error` is set to
`""` — NOT non-empty as the claim states. -/
theorem empty_rewrite_counterexample :
    (execute emptyCompletionEnv "hi" (some failingAdapter)).friendly_error = some "" ∧
    (execute emptyCompletionEnv "hi" (some failingAdapter)).error
      = some "Error executing DynamoDB query: boom" := by
  exact ⟨rfl, rfl⟩

/-- C1 amended: with an adapter function supplied, `execute` ends with
exactly one of `analysis` / `friendly_error` set — EXCEPT when the
completion call inside `analyze_results` faults after a successful adapter
execution: `analyze_results` then sets `error` itself, `execute` returns
without routing to `handle_error`, and the terminal state has NEITHER
`analysis` nor `friendly_error` set (third disjunct). -/
theorem execute_outcome (env : Env) (q : String)
    (f : Row → Except String (List Row)) :
    ((execute env q (some f)).analysis.isSome ∧
      (execute env q (some f)).friendly_error = none) ∨
    ((execute env q (some f)).friendly_error.isSome ∧
      (execute env q (some f)).analysis = none) ∨
    ((execute env q (some f)).analysis = none ∧
      (execute env q (some f)).friendly_error = none ∧
      (execute env q (some f)).error.isSome) := by
  obtain ⟨hq, han, hfr, hgen⟩ := preAdapterState_base env q
  cases herr : (preAdapterState env q).error with
  | some e =>
    rw [execute_eq_handle_of_error env q (some f) e herr]
    obtain ⟨h1, h2, h3⟩ := handle_error_fields env (preAdapterState env q)
    exact Or.inr (Or.inl ⟨h1, h2.trans han⟩)
  | none =>
    cases hqd : (preAdapterState env q).generated_query with
    | none => exact absurd (hgen herr) (by simp [hqd])
    | some qd =>
      rw [execute_eq_adapterPhase env q f qd hqd herr]
      unfold executeAdapterPhase
      cases hf : f qd with
      | error e =>
        dsimp only
        obtain ⟨h1, h2, h3⟩ := handle_error_fields env
          { preAdapterState env q with
            error := some ("Error executing DynamoDB query: " ++ e) }
        refine Or.inr (Or.inl ⟨h1, ?_⟩)
        rw [h2]
        simpa using han
      | ok results =>
        dsimp only
        by_cases hna : needs_aggregation (preAdapterState env q).query = true
        · rw [if_pos hna]
          cases hd : processAggregationDispatch results (preAdapterState env q).query with
          | error e =>
            dsimp only
            obtain ⟨h1, h2, h3⟩ := handle_error_fields env
              { preAdapterState env q with
                query_results := some results
                execution_time := some 0
                error := some ("Error executing DynamoDB query: " ++ e) }
            refine Or.inr (Or.inl ⟨h1, ?_⟩)
            rw [h2]
            simpa using han
          | ok results2 =>
            dsimp only
            have hst : ({ preAdapterState env q with
                query_results := some results2
                execution_time := some 0 } : WorkflowState).error = none := by
              simpa using herr
            rcases analyze_results_cases env _ hst with ⟨a1, a2, a3⟩ | ⟨a1, a2, a3⟩
            · refine Or.inl ⟨a1, ?_⟩
              rw [a3]
              simpa using hfr
            · refine Or.inr (Or.inr ⟨?_, ?_, a2⟩)
              · rw [a1]
                simpa using han
              · rw [a3]
                simpa using hfr
        · rw [if_neg hna]
          have hst : ({ preAdapterState env q with
              query_results := some results
              execution_time := some 0 } : WorkflowState).error = none := by
            simpa using herr
          rcases analyze_results_cases env _ hst with ⟨a1, a2, a3⟩ | ⟨a1, a2, a3⟩
          · refine Or.inl ⟨a1, ?_⟩
            rw [a3]
            simpa using hfr
          · refine Or.inr (Or.inr ⟨?_, ?_, a2⟩)
            · rw [a1]
              simpa using han
            · rw [a3]
              simpa using hfr

/-- C1 counterexample: the adapter succeeds and then the completion call in
`analyze_results` faults.  `analyze_results` sets `error` and returns, and
`execute` returns that state without calling `handle_error` — so the
terminal state has NEITHER `analysis` NOR `friendly_error` set, refuting
"exactly one of the two is always set". -/
theorem execute_neither_counterexample :
    (execute analyzeFaultEnv "hello" (some okAdapter)).analysis = none ∧
    (execute analyzeFaultEnv "hello" (some okAdapter)).friendly_error = none ∧
    (execute analyzeFaultEnv "hello" (some okAdapter)).error
      = some "Error in analyze_results: fail" := by
  exact ⟨rfl, rfl, rfl⟩
